import Mathlib

/-!
Shallow embedding of the asgineer connection-state adapter
(src/asgineer/_app.py and src/asgineer/_request.py) and proofs about it.

Python bytes are modelled as `List Nat` (byte values), `str.encode()` as
UTF-8 encoding, Python exceptions as an explicit error type, and each
`async` operation as a pure function that returns the updated object
state together with the messages it sent and the error it raised, if any.
-/

/-- Bytes objects are lists of byte values. -/
abbrev Bytes := List Nat

/-- UTF-8 encoding of one character (the standard 1-4 byte scheme). -/
def utf8Char (c : Char) : Bytes :=
  let n := c.toNat
  if n < 0x80 then [n]
  else if n < 0x800 then
    [0xC0 + n / 0x40, 0x80 + n % 0x40]
  else if n < 0x10000 then
    [0xE0 + n / 0x1000, 0x80 + n / 0x40 % 0x40, 0x80 + n % 0x40]
  else
    [0xF0 + n / 0x40000, 0x80 + n / 0x1000 % 0x40, 0x80 + n / 0x40 % 0x40, 0x80 + n % 0x40]

/-- Model of Python `str.encode()`: UTF-8 bytes of a string. -/
def strEncode (s : String) : Bytes :=
  (s.data.map utf8Char).flatten

/-- Python exception values raised by the adapter, tagged with the message. -/
inductive PyErr where
  | valueError (msg : String)
  | typeError (msg : String)
  | ioError (msg : String)
  | disconnectedError (msg : String)
deriving DecidableEq

/-- Dynamic Python values, covering the shapes the adapter inspects: ints,
strings, bytes, dicts, tuples, None, async generators (a finite list of
yielded chunk values followed by an optional exception raised by the
generator), sync generators and coroutines. -/
inductive PyVal where
  | pyInt (n : Int)
  | pyStr (s : String)
  | pyBytes (b : Bytes)
  | pyDict (entries : List (PyVal × PyVal))
  | pyTuple (elems : List PyVal)
  | pyNone
  | pyAsyncGen (chunks : List PyVal) (raised : Option PyErr)
  | pyGen
  | pyCoroutine

/-- Python `type(x)` rendered the way the adapter's f-strings use it. -/
def pyTypeName : PyVal → String
  | .pyInt _ => "<class int>"
  | .pyStr _ => "<class str>"
  | .pyBytes _ => "<class bytes>"
  | .pyDict _ => "<class dict>"
  | .pyTuple _ => "<class tuple>"
  | .pyNone => "<class NoneType>"
  | .pyAsyncGen _ _ => "<class async_generator>"
  | .pyGen => "<class generator>"
  | .pyCoroutine => "<class coroutine>"

/-- Whether a value is a Python tuple (`isinstance(response, tuple)`). -/
def isTuple : PyVal → Bool
  | .pyTuple _ => true
  | _ => false

/-- Model of `normalize_response` (src/asgineer/_app.py lines 45-70):
destructure the handler return value into (status, headers, body) with
defaults 200 and the empty dict, then validate that status is an int and
headers is a dict (spec error name: ShapeError; the code raises ValueError). -/
def normalize_response (response : PyVal) :
    Except PyErr (Int × List (PyVal × PyVal) × PyVal) :=
  let sth : Except PyErr (PyVal × PyVal × PyVal) :=
    match response with
    | .pyTuple [a, b, c] => .ok (a, b, c)
    | .pyTuple [a, b] => .ok (.pyInt 200, a, b)
    | .pyTuple [a] => .ok (.pyInt 200, .pyDict [], a)
    | .pyTuple es =>
        .error (.valueError ("Handler returned " ++ toString es.length ++ "-tuple."))
    | r => .ok (.pyInt 200, .pyDict [], r)
  match sth with
  | .error e => .error e
  | .ok (s, h, b) =>
    match s with
    | .pyInt st =>
      match h with
      | .pyDict hs => .ok (st, hs, b)
      | other => .error (.valueError ("Headers must be a dict, not " ++ pyTypeName other))
    | other => .error (.valueError ("Status code must be an int, not " ++ pyTypeName other))

example : strEncode "hi!" = [104, 105, 33] := by decide
example : normalize_response (.pyStr "x") = .ok (200, [], .pyStr "x") := by rfl

/-- Outbound ASGI messages produced by the adapter. The bytes-body message
that the code sends without a `more_body` key is modelled with `more = false`
(the ASGI default). -/
inductive Msg where
  | responseStart (status : Int) (headers : List (Bytes × Bytes))
  | responseBody (body : Bytes) (more : Bool)
  | wsClose (code : Int)
deriving DecidableEq

/-- Events produced while driving one exchange: an outbound message, a line
on the logging channel, or a call to the cleanup method `_destroy`.
The adapter under `src/` never emits `destroy`; the constructor exists so
that this absence is a provable statement. -/
inductive Ev where
  | out (m : Msg)
  | log (s : String)
  | destroy
deriving DecidableEq

/-- Whether an event is a `_destroy` cleanup call. -/
def Ev.isDestroy : Ev → Bool
  | .destroy => true
  | _ => false

/-- Inbound ASGI messages on an HTTP connection. -/
inductive InMsg where
  | request (body : Bytes) (more : Bool)
  | disconnect
deriving DecidableEq

/-- Client-side state of an HTTP request
(`CONNECTED -> DONE -> DISCONNECTED`, src/asgineer/_request.py line 147). -/
inductive CState where
  | connected
  | done
  | disconnected
deriving DecidableEq

/-- Application-side state of an HTTP request
(`CONNECTING -> CONNECTED -> DONE`, src/asgineer/_request.py line 148;
the spec calls these BEFORE_HEADERS, HEADERS_SENT, FINISHED). -/
inductive AppState where
  | connecting
  | connected
  | done
deriving DecidableEq

/-- Position of an application state along the forward order
BEFORE_HEADERS -> HEADERS_SENT -> FINISHED. -/
def AppState.ord : AppState → Nat
  | .connecting => 0
  | .connected => 1
  | .done => 2

/-- State of an `HttpRequest` object (src/asgineer/_request.py lines 129-150):
its application-side and client-side states, the queue of inbound messages
still to be received from the transport, and the memoized body. -/
structure HttpRequest where
  appState : AppState
  clientState : CState
  queue : List InMsg
  bodyMemo : Option Bytes
deriving DecidableEq

/-- Result of one request-object operation: the updated request, the
messages it sent, and the exception it raised (`none` when it returned
normally). The source mutates nothing before its raise statements, so a
raising call returns the request unchanged with no messages. -/
structure StepRes where
  req : HttpRequest
  msgs : List Msg
  err : Option PyErr
deriving DecidableEq

/-- Wire form of a string-keyed header mapping
(`[(k.encode(), v.encode()) for k, v in headers.items()]`). -/
def rawHeaders (hd : List (String × String)) : List (Bytes × Bytes) :=
  hd.map fun kv => (strEncode kv.1, strEncode kv.2)

/-- Model of `HttpRequest.accept` (src/asgineer/_request.py lines 152-182):
valid only in the CONNECTING application state, where it encodes the
headers, advances to CONNECTED and emits `http.response.start`. A second
call raises (spec error name: ProtocolError; the code raises IOError).
Headers are typed as string pairs here, so the header-encoding TypeError
branch of the source cannot fire. -/
def HttpRequest.accept (r : HttpRequest) (status : Int) (headers : List (String × String)) :
    StepRes :=
  if r.appState ≠ .connecting then
    ⟨r, [], some (.ioError "Cannot accept an already accepted connection.")⟩
  else
    ⟨{ r with appState := .connected },
     [.responseStart status (rawHeaders headers)], none⟩

/-- Bytes sent by `HttpRequest.send` for a given data value: str is
encoded, bytes pass through, anything else is a TypeError. -/
def sendDataBytes : PyVal → Option Bytes
  | .pyStr s => some (strEncode s)
  | .pyBytes b => some b
  | _ => none

/-- Model of `HttpRequest.send` (src/asgineer/_request.py lines 205-224):
composes the `http.response.body` message (TypeError for non-str/bytes
data), then sends only in the CONNECTED application state, advancing to
DONE when `more` is false; in CONNECTING or DONE it raises
(spec error name: ProtocolError; the code raises IOError). -/
def HttpRequest.send (r : HttpRequest) (data : PyVal) (more : Bool) : StepRes :=
  match sendDataBytes data with
  | none =>
      ⟨r, [], some (.typeError ("Can only send bytes/str over http, not "
        ++ pyTypeName data ++ "."))⟩
  | some d =>
    match r.appState with
    | .connected =>
        if more then ⟨r, [.responseBody d true], none⟩
        else ⟨{ r with appState := .done }, [.responseBody d false], none⟩
    | .connecting => ⟨r, [], some (.ioError "Cannot send before calling accept.")⟩
    | .done => ⟨r, [], some (.ioError "Cannot send to a closed connection.")⟩

/-- Model of `HttpRequest._receive_chunk` (src/asgineer/_request.py lines
184-203): raises IOError when already disconnected, else consumes the next
inbound message; a body chunk is returned (client state moves to DONE when
`more_body` is false), a disconnect (or a `None` message, modelled as an
empty queue) moves the client state to DISCONNECTED and raises
DisconnectedError. -/
def HttpRequest.receiveChunk (r : HttpRequest) : HttpRequest × Except PyErr Bytes :=
  if r.clientState = .disconnected then
    (r, .error (.ioError "Cannot receive from connection that already disconnected."))
  else
    match r.queue with
    | [] => ({ r with clientState := .disconnected }, .error (.disconnectedError ""))
    | .request b more :: rest =>
        ({ r with queue := rest,
                  clientState := if more then r.clientState else .done }, .ok b)
    | .disconnect :: rest =>
        ({ r with queue := rest, clientState := .disconnected },
         .error (.disconnectedError ""))

/-- A successful `_receive_chunk` always consumed one queued message. -/
theorem receiveChunk_ok_queue_lt (r r1 : HttpRequest) (b : Bytes)
    (h : r.receiveChunk = (r1, .ok b)) : r1.queue.length < r.queue.length := by
  unfold HttpRequest.receiveChunk at h
  split at h
  · simp at h
  · revert h
    match hq : r.queue with
    | [] => intro h; simp at h
    | .request b2 more :: rest =>
        intro h
        simp only [Prod.mk.injEq] at h
        obtain ⟨h1, -⟩ := h
        subst h1
        simp [hq]
    | .disconnect :: rest => intro h; simp at h

/-- Model of the loop inside `HttpRequest.get_body` iterating
`HttpRequest.iter_body` (src/asgineer/_request.py lines 261-292): receive
chunks, accumulate their total size, raise IOError("Request body too
large.") as soon as the accumulated size strictly exceeds the limit
(discarding the chunks read so far), stop after the chunk that ended the
body, memoize and return the concatenation. -/
def HttpRequest.getBodyLoop (r : HttpRequest) (limit nbytes : Nat)
    (chunks : List Bytes) : HttpRequest × Except PyErr Bytes :=
  match hrec : r.receiveChunk with
  | (r1, .error e) => (r1, .error e)
  | (r1, .ok b) =>
    if limit < nbytes + b.length then
      (r1, .error (.ioError "Request body too large."))
    else if r1.clientState ≠ .connected then
      let bodyAll := (chunks ++ [b]).flatten
      ({ r1 with bodyMemo := some bodyAll }, .ok bodyAll)
    else
      r1.getBodyLoop limit (nbytes + b.length) (chunks ++ [b])
termination_by r.queue.length
decreasing_by exact receiveChunk_ok_queue_lt r r1 b hrec

/-- Model of `HttpRequest.get_body` (src/asgineer/_request.py lines 277-292,
with `iter_body`, lines 261-275): return the memoized body if present
(without touching the transport); otherwise `iter_body` first raises
IOError if the body was already consumed, and then the receive loop runs
(spec name for the size failure: PayloadTooLargeError). -/
def HttpRequest.get_body (r : HttpRequest) (limit : Nat) :
    HttpRequest × Except PyErr Bytes :=
  match r.bodyMemo with
  | some b => (r, .ok b)
  | none =>
    if r.clientState = .done then
      (r, .error (.ioError "Cannot receive an http request that is already consumed."))
    else
      r.getBodyLoop limit 0 []

/-- Total size in bytes of a list of body chunks. -/
def totalLen (chunks : List Bytes) : Nat := (chunks.map List.length).sum

/-- Wire form of a body the peer delivers in the given chunks: one
`http.request` message per chunk, `more_body` true on all but the last. -/
def wireBody : List Bytes → List InMsg
  | [] => []
  | [c] => [.request c false]
  | c :: c2 :: rest => .request c true :: wireBody (c2 :: rest)

/-- Request object as freshly constructed for an HTTP connection whose
inbound messages are `q` (src/asgineer/_request.py lines 143-150). -/
def freshHttpRequest (q : List InMsg) : HttpRequest :=
  ⟨.connecting, .connected, q, none⟩

/-- Unfolding of the body loop on the last wire chunk. -/
theorem getBodyLoop_wire_single (as : AppState) (memo : Option Bytes) (c : Bytes)
    (limit nbytes : Nat) (acc : List Bytes) :
    HttpRequest.getBodyLoop ⟨as, .connected, wireBody [c], memo⟩ limit nbytes acc =
      if limit < nbytes + c.length then
        (⟨as, .done, [], memo⟩, .error (.ioError "Request body too large."))
      else
        (⟨as, .done, [], some ((acc ++ [c]).flatten)⟩, .ok ((acc ++ [c]).flatten)) := by
  rw [HttpRequest.getBodyLoop]
  simp [wireBody, HttpRequest.receiveChunk]

/-- Unfolding of the body loop on a non-final wire chunk below the limit. -/
theorem getBodyLoop_wire_step (as : AppState) (memo : Option Bytes) (c c2 : Bytes)
    (rest : List Bytes) (limit nbytes : Nat) (acc : List Bytes)
    (h : ¬ limit < nbytes + c.length) :
    HttpRequest.getBodyLoop ⟨as, .connected, wireBody (c :: c2 :: rest), memo⟩ limit nbytes acc =
      HttpRequest.getBodyLoop ⟨as, .connected, wireBody (c2 :: rest), memo⟩ limit
        (nbytes + c.length) (acc ++ [c]) := by
  rw [HttpRequest.getBodyLoop]
  simp [wireBody, HttpRequest.receiveChunk, h]

/-- Unfolding of the body loop on a non-final wire chunk beyond the limit. -/
theorem getBodyLoop_wire_stop (as : AppState) (memo : Option Bytes) (c c2 : Bytes)
    (rest : List Bytes) (limit nbytes : Nat) (acc : List Bytes)
    (h : limit < nbytes + c.length) :
    HttpRequest.getBodyLoop ⟨as, .connected, wireBody (c :: c2 :: rest), memo⟩ limit nbytes acc =
      (⟨as, .connected, wireBody (c2 :: rest), memo⟩,
        .error (.ioError "Request body too large.")) := by
  rw [HttpRequest.getBodyLoop]
  simp [wireBody, HttpRequest.receiveChunk, h]

/-- Behaviour of the body loop on a complete wire-delivered body: it
raises exactly when the accumulated size passes the limit, and otherwise
returns and memoizes the concatenation of all chunks. -/
theorem getBodyLoop_wire (as : AppState) (memo : Option Bytes) :
    ∀ (chunks : List Bytes), chunks ≠ [] → ∀ (limit nbytes : Nat) (acc : List Bytes),
      (limit < nbytes + totalLen chunks →
        ∃ r1, HttpRequest.getBodyLoop ⟨as, .connected, wireBody chunks, memo⟩ limit nbytes acc
            = (r1, .error (.ioError "Request body too large.")))
      ∧ (nbytes + totalLen chunks ≤ limit →
        HttpRequest.getBodyLoop ⟨as, .connected, wireBody chunks, memo⟩ limit nbytes acc
            = (⟨as, .done, [], some ((acc ++ chunks).flatten)⟩,
               .ok ((acc ++ chunks).flatten))) := by
  intro chunks
  induction chunks with
  | nil => intro h; exact absurd rfl h
  | cons c rest ih =>
    intro _ limit nbytes acc
    cases rest with
    | nil =>
      constructor
      · intro hlt
        refine ⟨⟨as, .done, [], memo⟩, ?_⟩
        rw [getBodyLoop_wire_single]
        simp [totalLen] at hlt
        simp [hlt]
      · intro hle
        rw [getBodyLoop_wire_single]
        simp [totalLen] at hle
        simp [Nat.not_lt.mpr hle]
    | cons c2 rest2 =>
      by_cases hc : limit < nbytes + c.length
      · have htot : limit < nbytes + totalLen (c :: c2 :: rest2) := by
          simp only [totalLen, List.map_cons, List.sum_cons]
          omega
        constructor
        · intro _
          exact ⟨_, getBodyLoop_wire_stop as memo c c2 rest2 limit nbytes acc hc⟩
        · intro hle
          omega
      · have ihr := ih (by simp) limit (nbytes + c.length) (acc ++ [c])
        rw [getBodyLoop_wire_step as memo c c2 rest2 limit nbytes acc hc]
        have harith : nbytes + totalLen (c :: c2 :: rest2)
            = nbytes + c.length + totalLen (c2 :: rest2) := by
          simp only [totalLen, List.map_cons, List.sum_cons]
          omega
        constructor
        · intro hlt
          exact ihr.1 (by omega)
        · intro hle
          have := ihr.2 (by omega)
          simpa [List.append_assoc] using this

/-- C5: for every complete body delivered by the peer as a nonempty list of
chunks and every limit N, `HttpRequest.get_body` raises the payload-size
error (spec name: PayloadTooLargeError; the code raises IOError with
message "Request body too large.") exactly when the total body size
strictly exceeds N, discarding the chunks buffered so far on that path;
when the total size is at most N it returns exactly the concatenation of
the chunks the peer sent and memoizes it, and every subsequent call, with
any limit, returns the identical cached result without consuming any
further transport message. -/
theorem get_body_limit_and_memo (chunks : List Bytes) (limit : Nat)
    (hne : chunks ≠ []) :
    (limit < totalLen chunks →
      ∃ r1, (freshHttpRequest (wireBody chunks)).get_body limit
          = (r1, .error (.ioError "Request body too large.")))
    ∧ (totalLen chunks ≤ limit →
      (freshHttpRequest (wireBody chunks)).get_body limit
        = (⟨.connecting, .done, [], some chunks.flatten⟩, .ok chunks.flatten)
      ∧ ∀ limit2 : Nat,
        HttpRequest.get_body ⟨.connecting, .done, [], some chunks.flatten⟩ limit2
          = (⟨.connecting, .done, [], some chunks.flatten⟩, .ok chunks.flatten)) := by
  have hw := getBodyLoop_wire .connecting none chunks hne limit 0 []
  constructor
  · intro hlt
    obtain ⟨r1, hr⟩ := hw.1 (by omega)
    refine ⟨r1, ?_⟩
    simpa [HttpRequest.get_body, freshHttpRequest] using hr
  · intro hle
    have h2 := hw.2 (by omega)
    constructor
    · simpa [HttpRequest.get_body, freshHttpRequest] using h2
    · intro limit2
      rfl

/-- Witness for `get_body_limit_and_memo` at a concrete two-chunk body of
total size 3 and limit 1. -/
theorem get_body_limit_and_memo_witness :
    (([[104], [105, 33]] : List Bytes) ≠ [])
    ∧ (1 : Nat) < totalLen [[104], [105, 33]]
    ∧ ∃ r1, (freshHttpRequest (wireBody [[104], [105, 33]])).get_body 1
        = (r1, .error (.ioError "Request body too large.")) :=
  ⟨by decide, by decide,
   (get_body_limit_and_memo [[104], [105, 33]] 1 (by decide)).1 (by decide)⟩

/-- C4: the HTTP application state only advances forward through
BEFORE_HEADERS -> HEADERS_SENT -> FINISHED. `HttpRequest.accept` is valid
only in CONNECTING (BEFORE_HEADERS) and a second call raises the protocol
error without touching state or wire; `HttpRequest.send` is valid only in
CONNECTED (HEADERS_SENT) and raises the protocol error both before accept
and after DONE (FINISHED); every failing call returns the request
unchanged and emits no outbound message, and every call leaves the state
at the same or a later position of the forward order. -/
theorem http_exchange_state_machine (st : Int) (hd : List (String × String))
    (d : Bytes) (m : Bool) (cs : CState) (q : List InMsg) (memo : Option Bytes) :
    (HttpRequest.accept ⟨.connecting, cs, q, memo⟩ st hd
      = ⟨⟨.connected, cs, q, memo⟩, [.responseStart st (rawHeaders hd)], none⟩)
    ∧ (HttpRequest.accept ⟨.connected, cs, q, memo⟩ st hd
      = ⟨⟨.connected, cs, q, memo⟩, [],
          some (.ioError "Cannot accept an already accepted connection.")⟩)
    ∧ (HttpRequest.accept ⟨.done, cs, q, memo⟩ st hd
      = ⟨⟨.done, cs, q, memo⟩, [],
          some (.ioError "Cannot accept an already accepted connection.")⟩)
    ∧ (HttpRequest.send ⟨.connecting, cs, q, memo⟩ (.pyBytes d) m
      = ⟨⟨.connecting, cs, q, memo⟩, [],
          some (.ioError "Cannot send before calling accept.")⟩)
    ∧ (HttpRequest.send ⟨.connected, cs, q, memo⟩ (.pyBytes d) m
      = ⟨⟨(if m then .connected else .done), cs, q, memo⟩, [.responseBody d m], none⟩)
    ∧ (HttpRequest.send ⟨.done, cs, q, memo⟩ (.pyBytes d) m
      = ⟨⟨.done, cs, q, memo⟩, [],
          some (.ioError "Cannot send to a closed connection.")⟩)
    ∧ (∀ r : HttpRequest,
        r.appState.ord ≤ (HttpRequest.accept r st hd).req.appState.ord
        ∧ r.appState.ord ≤ (HttpRequest.send r (.pyBytes d) m).req.appState.ord) := by
  refine ⟨rfl, rfl, rfl, rfl, by cases m <;> rfl, rfl, ?_⟩
  intro r
  obtain ⟨as, rcs, rq, rmemo⟩ := r
  cases as <;> cases m <;> simp [HttpRequest.accept, HttpRequest.send,
    sendDataBytes, AppState.ord]

/-- C1: every valid response shape normalizes to the same triple as its
equivalent 3-tuple form, with defaults status 200 and empty headers for
the omitted positions; a tuple of length 4 or more (or 0) always fails
with the shape error (the code raises ValueError). -/
theorem normalize_response_shapes :
    (∀ (h b : PyVal), normalize_response (.pyTuple [h, b])
      = normalize_response (.pyTuple [.pyInt 200, h, b]))
    ∧ (∀ b : PyVal, normalize_response (.pyTuple [b])
      = normalize_response (.pyTuple [.pyInt 200, .pyDict [], b]))
    ∧ (∀ b : PyVal, isTuple b = false → normalize_response b
      = normalize_response (.pyTuple [.pyInt 200, .pyDict [], b]))
    ∧ (∀ (st : Int) (hs : List (PyVal × PyVal)) (b : PyVal),
      normalize_response (.pyTuple [.pyInt st, .pyDict hs, b]) = .ok (st, hs, b))
    ∧ (∀ es : List PyVal, 4 ≤ es.length →
      normalize_response (.pyTuple es)
        = .error (.valueError ("Handler returned " ++ toString es.length ++ "-tuple."))) := by
  refine ⟨fun h b => rfl, fun b => rfl, ?_, fun st hs b => rfl, ?_⟩
  · intro b hb
    cases b <;> first | rfl | simp [isTuple] at hb
  · intro es hlen
    match es with
    | e1 :: e2 :: e3 :: e4 :: tl => rfl
    | [] | [e1] | [e1, e2] | [e1, e2, e3] => simp at hlen

/-- Witness for `normalize_response_shapes`: the body-alone form for a
non-tuple value, and a 4-tuple failing with the shape error. -/
theorem normalize_response_shapes_witness :
    isTuple (.pyStr "x") = false
    ∧ normalize_response (.pyStr "x")
        = normalize_response (.pyTuple [.pyInt 200, .pyDict [], .pyStr "x"])
    ∧ 4 ≤ ([PyVal.pyNone, .pyNone, .pyNone, .pyNone] : List PyVal).length
    ∧ normalize_response (.pyTuple [.pyNone, .pyNone, .pyNone, .pyNone])
        = .error (.valueError ("Handler returned "
            ++ toString ([PyVal.pyNone, .pyNone, .pyNone, .pyNone] : List PyVal).length
            ++ "-tuple.")) :=
  ⟨rfl,
   normalize_response_shapes.2.2.1 (.pyStr "x") rfl,
   by simp,
   normalize_response_shapes.2.2.2.2 [PyVal.pyNone, .pyNone, .pyNone, .pyNone] (by simp)⟩

/-- Python equality of a dict key with a given str: only str keys compare
equal to a string (`"content-type" not in headers`). -/
def keyIsStr (k : PyVal) (s : String) : Bool :=
  match k with
  | .pyStr t => t == s
  | _ => false

/-- Whether a dict has the given string key. -/
def dictHasKey (hs : List (PyVal × PyVal)) (s : String) : Bool :=
  hs.any fun kv => keyIsStr kv.1 s

/-- Model of `dict.setdefault(k, v)` for a string key: append the pair at
the end (insertion order) when the key is absent. -/
def dictSetDefault (hs : List (PyVal × PyVal)) (k v : String) :
    List (PyVal × PyVal) :=
  if dictHasKey hs k then hs else hs ++ [(.pyStr k, .pyStr v)]

/-- JSON string literal (minimal escaping; enough for the values this
development evaluates). -/
def jsonStr (s : String) : String := "\"" ++ s ++ "\""

mutual

/-- Model of `json.dumps` on a value: supported for str, int, and
string-keyed dicts of supported values; `none` models the TypeError that
`json.dumps` raises on unserializable content. -/
def jsonValue : PyVal → Option String
  | .pyStr s => some (jsonStr s)
  | .pyInt n => some (toString n)
  | .pyDict d =>
      match jsonEntries d with
      | some parts => some ("\x7b" ++ String.intercalate ", " parts ++ "\x7d")
      | none => none
  | _ => none

/-- Serialized `"key": value` parts of a dict body, in insertion order. -/
def jsonEntries : List (PyVal × PyVal) → Option (List String)
  | [] => some []
  | (k, v) :: rest =>
    match k with
    | .pyStr ks =>
      match jsonValue v, jsonEntries rest with
      | some vs, some rs => some ((jsonStr ks ++ ": " ++ vs) :: rs)
      | _, _ => none
    | _ => none

end

/-- Model of `guess_content_type_from_body` (src/asgineer/_app.py lines
73-89). -/
def guess_content_type_from_body (body : PyVal) : String :=
  match body with
  | .pyStr s =>
      if s.startsWith "<!DOCTYPE html>" || s.startsWith "<!doctype html>"
          || s.startsWith "<html>" then "text/html"
      else "text/plain"
  | .pyDict _ => "application/json"
  | _ => "application/octet-stream"

/-- Body of a response after the conversion step: either a complete byte
string or a lazy chunk stream (async generator) passed through verbatim. -/
inductive FinalBody where
  | bytes (b : Bytes)
  | stream (chunks : List PyVal) (raised : Option PyErr)

/-- Conversion of the normalized body (src/asgineer/_app.py lines 191-211):
bytes pass, str is encoded, dict is JSON-encoded (ValueError when that
fails), an async generator passes verbatim; a sync generator, a coroutine
and any other type are rejected with ValueError. -/
def convertBody : PyVal → Except PyErr FinalBody
  | .pyBytes b => .ok (.bytes b)
  | .pyStr s => .ok (.bytes (strEncode s))
  | .pyDict d =>
      match jsonValue (.pyDict d) with
      | some s => .ok (.bytes (strEncode s))
      | none => .error (.valueError "Could not JSON encode body: TypeError")
  | .pyAsyncGen cs e => .ok (.stream cs e)
  | .pyGen => .error (.valueError "Body cannot be a regular generator, use an async generator.")
  | .pyCoroutine => .error (.valueError "Body cannot be a coroutine, forgot await?")
  | b => .error (.valueError ("Body cannot be " ++ pyTypeName b ++ "."))

/-- Wire encoding of the header dict
(`[(k.encode(), v.encode()) for k, v in headers.items()]`, ValueError when
a key or value is not a string). -/
def encodeHeaderEntries : List (PyVal × PyVal) → Option (List (Bytes × Bytes))
  | [] => some []
  | (.pyStr k, .pyStr v) :: rest =>
      match encodeHeaderEntries rest with
      | some enc => some ((strEncode k, strEncode v) :: enc)
      | none => none
  | _ => none

/-- Output-processing phase of `BaseApplication._handle_http`
(src/asgineer/_app.py lines 183-219): normalize the handler result, fill
in a guessed content-type when absent, convert the body, default
content-length for byte bodies, and encode the headers for the wire. -/
def processOutput (result : PyVal) :
    Except PyErr (Int × List (Bytes × Bytes) × FinalBody) :=
  match normalize_response result with
  | .error e => .error e
  | .ok (st, hs, body) =>
    let hs1 := if dictHasKey hs "content-type" then hs
      else hs ++ [(.pyStr "content-type", .pyStr (guess_content_type_from_body body))]
    match convertBody body with
    | .error e => .error e
    | .ok fb =>
      let hs2 := match fb with
        | .bytes b => dictSetDefault hs1 "content-length" (toString b.length)
        | _ => hs1
      match encodeHeaderEntries hs2 with
      | none => .error (.valueError "Header keys and values must all be strings.")
      | some raw => .ok (st, raw, fb)

/-- Python exception class name as used in the adapter's f-strings
(IOError is an alias of OSError in Python 3). -/
def errTypeName : PyErr → String
  | .valueError _ => "ValueError"
  | .typeError _ => "TypeError"
  | .ioError _ => "OSError"
  | .disconnectedError _ => "DisconnectedError"

/-- Message text carried by an exception (`str(err)`). -/
def errMsg : PyErr → String
  | .valueError m => m
  | .typeError m => m
  | .ioError m => m
  | .disconnectedError m => m

/-- Bytes of one chunk of a lazy body (src/asgineer/_app.py lines 240-246):
str chunks are encoded, bytes pass, anything else is the TypeError raised
inside the streaming loop. -/
def chunkToBytes : PyVal → Option Bytes
  | .pyStr s => some (strEncode s)
  | .pyBytes b => some b
  | _ => none

/-- Exception handler of the chunked-response loop (src/asgineer/_app.py
lines 257-271): log the error; then, if the start message was not yet
sent, send a clean 500 response, else terminate the body with a
zero-length final chunk. -/
def streamFail (start : Msg) (started : Bool) (e : PyErr) : List Ev :=
  let etext := errTypeName e ++ " in chunked response: " ++ errMsg e
  if started then
    [.log etext, .out (.responseBody [] false)]
  else
    [.log etext, .out (.responseStart 500 []),
     .out (.responseBody (strEncode etext) false)]

/-- Streaming loop of `BaseApplication._handle_http` (src/asgineer/_app.py
lines 238-271): the start message is deferred until the first chunk has
been converted; each chunk is sent with `more_body` true; a normal end of
the generator sends the zero-length final chunk; an exception (from the
generator, or the TypeError for an invalid chunk) goes to `streamFail`. -/
def streamEvents (start : Msg) (started : Bool) :
    List PyVal → Option PyErr → List Ev
  | [], none => [.out (.responseBody [] false)]
  | [], some e => streamFail start started e
  | c :: rest, e? =>
    match chunkToBytes c with
    | none => streamFail start started
        (.typeError ("Body chunk must be str or bytes, not " ++ pyTypeName c))
    | some cb =>
        (if started then [] else [.out start])
          ++ .out (.responseBody cb true) :: streamEvents start true rest e?

/-- Send phase of `BaseApplication._handle_http` (src/asgineer/_app.py
lines 229-271): a byte body is sent as start plus a single body message
(no `more_body` key, hence final); a lazy body goes through the streaming
loop. -/
def sendPhase (st : Int) (raw : List (Bytes × Bytes)) : FinalBody → List Ev
  | .bytes b => [.out (.responseStart st raw), .out (.responseBody b false)]
  | .stream cs e? => streamEvents (.responseStart st raw) false cs e?

/-- One direct call a handler makes on its request object. -/
inductive HStep where
  | accept (status : Int) (headers : List (String × String))
  | send (data : PyVal) (more : Bool)

/-- A handler coroutine, abstracted as the request-object calls it makes
in order and then its outcome: a returned value or a raised exception. -/
structure Handler where
  steps : List HStep
  outcome : Except PyErr PyVal

/-- Apply one handler step to the request object. -/
def applyStep (r : HttpRequest) : HStep → StepRes
  | .accept st hd => r.accept st hd
  | .send d m => r.send d m

/-- Run the handler's request-object calls; an exception raised by a call
propagates out of the handler, skipping its remaining steps. -/
def runSteps (r : HttpRequest) : List HStep → HttpRequest × List Ev × Option PyErr
  | [] => (r, [], none)
  | s :: rest =>
    let res := applyStep r s
    match res.err with
    | some e => (res.req, res.msgs.map Ev.out, some e)
    | none =>
      let rec2 := runSteps res.req rest
      (rec2.1, res.msgs.map Ev.out ++ rec2.2.1, rec2.2.2)

/-- Model of `BaseApplication._handle_http` (src/asgineer/_app.py lines
167-271) driving one HTTP exchange: run the handler; if it raised, log and
send a plain 500 response; otherwise process its output (logging and
sending a plain 500 response when that fails) and run the send phase.
The driver never consults the request state the handler left behind, and
it never calls `_destroy`. -/
def handle_http (h : Handler) : List Ev :=
  let ran := runSteps (freshHttpRequest []) h.steps
  let outcome : Except PyErr PyVal :=
    match ran.2.2 with
    | some e => .error e
    | none => h.outcome
  match outcome with
  | .error e =>
    let etext := errTypeName e ++ " in request handler: " ++ errMsg e
    ran.2.1 ++ [.log etext, .out (.responseStart 500 []),
      .out (.responseBody (strEncode etext) false)]
  | .ok result =>
    match processOutput result with
    | .error e =>
      let etext := "Error in processing handler output: " ++ errMsg e
      ran.2.1 ++ [.log etext, .out (.responseStart 500 []),
        .out (.responseBody (strEncode etext) false)]
    | .ok (st, raw, fb) => ran.2.1 ++ sendPhase st raw fb

/-- Number of positional parameters `HttpRequest.__init__` requires
(src/asgineer/_request.py line 143: scope, receive and send). -/
def httpRequestInitParams : Nat := 3

/-- Number of positional arguments the dispatcher supplies when it
constructs the HttpRequest (src/asgineer/_app.py line 104:
`HttpRequest(self._scope, receive)`). -/
def dispatcherHttpRequestArgs : Nat := 2

/-- Model of `BaseApplication.__call__` (src/asgineer/_app.py lines
101-112) for a connection of the given scope type. For `http` the
dispatcher first constructs the HttpRequest; Python raises TypeError at
that call when the supplied argument count does not meet the required
parameter count, before `_handle_http` (and hence the handler) runs and
outside any try block. The websocket and lifespan branches are elided
(no claim in this development depends on their events). -/
def BaseApplication.call (scopeType : String) (h : Handler) :
    List Ev × Option PyErr :=
  if scopeType = "http" then
    if dispatcherHttpRequestArgs = httpRequestInitParams then
      (handle_http h, none)
    else
      ([], some (.typeError
        "HttpRequest.__init__ missing 1 required positional argument: send"))
  else if scopeType = "websocket" then ([], none)
  else if scopeType = "lifespan" then ([], none)
  else ([.log ("Unknown ASGI type " ++ scopeType)], none)

/-- Outbound wire messages among a list of events. -/
def outMsgs (evs : List Ev) : List Msg :=
  evs.filterMap fun e =>
    match e with
    | .out m => some m
    | _ => none

/-- Log lines among a list of events. -/
def logsOf (evs : List Ev) : List String :=
  evs.filterMap fun e =>
    match e with
    | .log s => some s
    | _ => none

/-- Whether a wire message is `http.response.start`. -/
def Msg.isStart : Msg → Bool
  | .responseStart _ _ => true
  | _ => false

/-- Whether a wire message is `http.response.body`. -/
def Msg.isBody : Msg → Bool
  | .responseBody _ _ => true
  | _ => false

/-- Number of `http.response.start` messages in a trace. -/
def startCount (ms : List Msg) : Nat := (ms.filter Msg.isStart).length

/-- Status of the first `http.response.start` in a trace. -/
def respStatus (ms : List Msg) : Option Int :=
  (ms.filterMap fun m =>
    match m with
    | .responseStart s _ => some s
    | _ => none).head?

/-- Concatenated payload of all `http.response.body` messages in a trace:
the body as the client receives it. -/
def clientBody (ms : List Msg) : Bytes :=
  (ms.filterMap fun m =>
    match m with
    | .responseBody b _ => some b
    | _ => none).flatten

/-- Whether no `http.response.body` message follows a body message with
`more_body` false. -/
def noBodyAfterFinal : List Msg → Bool
  | [] => true
  | .responseBody _ false :: rest => rest.all fun m => ! m.isBody
  | _ :: rest => noBodyAfterFinal rest

/-- C9: a handler returning the plain string "hi!" produces a response
with status 200, inferred content-type text/plain, content-length "3",
and body exactly the bytes of "hi!". -/
theorem handle_http_hi_scenario :
    handle_http ⟨[], .ok (.pyStr "hi!")⟩ =
      [.out (.responseStart 200
        [(strEncode "content-type", strEncode "text/plain"),
         (strEncode "content-length", strEncode "3")]),
       .out (.responseBody (strEncode "hi!") false)] := by rfl

/-- A handler that uses the direct mode its documentation describes:
`accept(200, {})`, a final `send(b"x", more=False)`, then returning None
(src/asgineer/_request.py lines 155-158: in that case the handler must
return None). -/
def directModeHandler : Handler :=
  ⟨[.accept 200 [], .send (.pyBytes (strEncode "x")) false], .ok .pyNone⟩

/-- C7 (refuted on the code): for a handler that accepted and finished the
response itself and then returned None, `handle_http` goes on to process
the None return value, fails, and emits a second `http.response.start`
plus a body message after the final body chunk. The full illegal trace is
stated explicitly. -/
theorem handle_http_direct_mode_illegal :
    startCount (outMsgs (handle_http directModeHandler)) = 2
    ∧ noBodyAfterFinal (outMsgs (handle_http directModeHandler)) = false
    ∧ outMsgs (handle_http directModeHandler) =
      [.responseStart 200 [], .responseBody (strEncode "x") false,
       .responseStart 500 [],
       .responseBody (strEncode
         "Error in processing handler output: Body cannot be <class NoneType>.")
         false] := by
  refine ⟨by decide, by decide, by decide⟩

/-- C2: for every connection of kind http, the dispatcher raises TypeError
while constructing the HttpRequest (two arguments supplied where three
parameters are required), before any handler code runs and outside any
failure boundary, so no outbound message at all - in particular no
`http.response.start` - is sent on that connection, whatever the handler. -/
theorem dispatcher_http_construction_typeerror (h : Handler) :
    dispatcherHttpRequestArgs < httpRequestInitParams
    ∧ BaseApplication.call "http" h
      = ([], some (.typeError
          "HttpRequest.__init__ missing 1 required positional argument: send"))
    ∧ outMsgs (BaseApplication.call "http" h).1 = [] := by
  exact ⟨by decide, rfl, rfl⟩

/-- Helper: filtering a list through a total `some` composition is a map. -/
theorem filterMap_some_to_map (f : Bytes → Msg) (L : List Bytes) :
    List.filterMap (fun x => some (f x)) L = L.map f := by
  induction L with
  | nil => rfl
  | cons a l ih => simp [ih]

/-- Streaming with headers already sent: all valid chunks go out with
`more_body` true, then the generator's exception is handled. -/
theorem streamEvents_started_valid (start : Msg) (e : PyErr) :
    ∀ cs : List PyVal, (∀ c ∈ cs, (chunkToBytes c).isSome) →
      streamEvents start true cs (some e) =
        ((cs.filterMap chunkToBytes).map fun b => Ev.out (.responseBody b true))
          ++ streamFail start true e := by
  intro cs
  induction cs with
  | nil => intro _; rfl
  | cons c rest ih =>
    intro hv
    have hc := hv c (by simp)
    obtain ⟨cb, hcb⟩ := Option.isSome_iff_exists.mp hc
    simp [streamEvents, hcb, ih fun x hx => hv x (by simp [hx])]

/-- Streaming with deferred headers: the start message goes out right
before the first chunk, then as in `streamEvents_started_valid`. -/
theorem streamEvents_deferred_valid (start : Msg) (e : PyErr) (c : PyVal)
    (cs : List PyVal) (hv : ∀ x ∈ c :: cs, (chunkToBytes x).isSome) :
    streamEvents start false (c :: cs) (some e) =
      .out start
        :: (((c :: cs).filterMap chunkToBytes).map fun b => Ev.out (.responseBody b true))
          ++ streamFail start true e := by
  have hc := hv c (by simp)
  obtain ⟨cb, hcb⟩ := Option.isSome_iff_exists.mp hc
  simp [streamEvents, hcb, streamEvents_started_valid start e cs
    fun x hx => hv x (by simp [hx])]

/-- Driving a handler that returns (status, {}, lazy-body) reduces to the
streaming loop with the start message carrying the guessed content-type. -/
theorem handle_http_stream_eq (st : Int) (e? : Option PyErr) (cs : List PyVal) :
    handle_http ⟨[], .ok (.pyTuple [.pyInt st, .pyDict [], .pyAsyncGen cs e?])⟩
      = streamEvents (.responseStart st
          [(strEncode "content-type", strEncode "application/octet-stream")])
          false cs e? := by
  rfl

/-- C3: for a lazy (async-generator) body, header sending is deferred
until the first chunk, so a generator failing before its first chunk
still yields a clean 500 response; a generator failing after valid chunks
leaves the committed status untouched, truncates the stream with a
zero-length final chunk, and reports the error on the logging channel
only; in particular a handler raising after yielding "foo" produces
status 200 with body exactly the bytes of "foo". -/
theorem http_stream_error_handling (st : Int) (e : PyErr) (cs : List PyVal)
    (hv : ∀ c ∈ cs, (chunkToBytes c).isSome) (hne : cs ≠ []) :
    respStatus (outMsgs (handle_http
        ⟨[], .ok (.pyTuple [.pyInt st, .pyDict [], .pyAsyncGen [] (some e)])⟩))
      = some 500
    ∧ outMsgs (handle_http
        ⟨[], .ok (.pyTuple [.pyInt st, .pyDict [], .pyAsyncGen cs (some e)])⟩)
      = .responseStart st [(strEncode "content-type", strEncode "application/octet-stream")]
          :: ((cs.filterMap chunkToBytes).map fun b => Msg.responseBody b true)
          ++ [.responseBody [] false]
    ∧ logsOf (handle_http
        ⟨[], .ok (.pyTuple [.pyInt st, .pyDict [], .pyAsyncGen cs (some e)])⟩)
      = [errTypeName e ++ " in chunked response: " ++ errMsg e]
    ∧ respStatus (outMsgs (handle_http ⟨[], .ok (.pyAsyncGen [.pyStr "foo"] (some e))⟩))
      = some 200
    ∧ clientBody (outMsgs (handle_http ⟨[], .ok (.pyAsyncGen [.pyStr "foo"] (some e))⟩))
      = strEncode "foo" := by
  obtain ⟨c, rest, rfl⟩ : ∃ c rest, cs = c :: rest := by
    cases cs with
    | nil => exact absurd rfl hne
    | cons a b => exact ⟨a, b, rfl⟩
  refine ⟨rfl, ?_, ?_, ?_, ?_⟩
  · rw [handle_http_stream_eq, streamEvents_deferred_valid _ _ _ _ hv]
    simp [outMsgs, streamFail, List.filterMap_append, Function.comp_def,
      filterMap_some_to_map]
  · rw [handle_http_stream_eq, streamEvents_deferred_valid _ _ _ _ hv]
    simp [logsOf, streamFail, List.filterMap_append]
  · rfl
  · rfl

/-- Witness for `http_stream_error_handling` at the spec scenario: the
single chunk "foo" followed by an exception. -/
theorem http_stream_error_handling_witness :
    (∀ c ∈ [PyVal.pyStr "foo"], (chunkToBytes c).isSome)
    ∧ ([PyVal.pyStr "foo"] ≠ [])
    ∧ clientBody (outMsgs (handle_http
        ⟨[], .ok (.pyAsyncGen [.pyStr "foo"] (some (.valueError "boom")))⟩))
      = strEncode "foo" :=
  ⟨by decide, List.cons_ne_nil _ _,
   (http_stream_error_handling 200 (.valueError "boom") [.pyStr "foo"]
      (by decide) (List.cons_ne_nil _ _)).2.2.2.2⟩

/-- Helper: events lifted from wire messages are never cleanup calls. -/
theorem countP_map_out (ms : List Msg) :
    ((ms.map Ev.out).countP Ev.isDestroy) = 0 := by
  induction ms with
  | nil => rfl
  | cons a l ih => simp [Ev.isDestroy, List.countP_cons, ih]

/-- Helper: the chunked-response exception handler performs no cleanup. -/
theorem streamFail_destroyCount (start : Msg) (started : Bool) (e : PyErr) :
    ((streamFail start started e).countP Ev.isDestroy) = 0 := by
  cases started <;> simp [streamFail, Ev.isDestroy, List.countP_cons]

/-- Helper: the streaming loop performs no cleanup on any path. -/
theorem streamEvents_destroyCount (start : Msg) :
    ∀ (cs : List PyVal) (started : Bool) (e? : Option PyErr),
      ((streamEvents start started cs e?).countP Ev.isDestroy) = 0 := by
  intro cs
  induction cs with
  | nil =>
    intro started e?
    cases e? with
    | none => simp [streamEvents, Ev.isDestroy, List.countP_cons]
    | some e => exact streamFail_destroyCount start started e
  | cons c rest ih =>
    intro started e?
    cases hc : chunkToBytes c with
    | none => simpa [streamEvents, hc] using streamFail_destroyCount start started _
    | some cb =>
      cases started <;>
        simp [streamEvents, hc, List.countP_append, List.countP_cons,
          Ev.isDestroy, ih]

/-- Helper: the send phase performs no cleanup on any path. -/
theorem sendPhase_destroyCount (st : Int) (raw : List (Bytes × Bytes))
    (fb : FinalBody) : ((sendPhase st raw fb).countP Ev.isDestroy) = 0 := by
  cases fb with
  | bytes b => simp [sendPhase, Ev.isDestroy, List.countP_cons]
  | stream cs e? => exact streamEvents_destroyCount _ cs false e?

/-- Helper: running the handler steps performs no cleanup. -/
theorem runSteps_destroyCount :
    ∀ (steps : List HStep) (r : HttpRequest),
      (((runSteps r steps).2.1).countP Ev.isDestroy) = 0 := by
  intro steps
  induction steps with
  | nil => intro r; rfl
  | cons s rest ih =>
    intro r
    unfold runSteps
    cases h : (applyStep r s).err with
    | some e =>
      simp [h, countP_map_out]
      intro a _
      rfl
    | none =>
      simp [h, List.countP_append, countP_map_out, ih]
      intro a _
      rfl

/-- C6 (refuted on the code): on every exit path of the HTTP driving
coroutine - normal return, handler exception, output-processing failure,
streamed-body failure - the number of `_destroy` cleanup calls is zero,
not the exactly-once the claim requires: `BaseApplication._handle_http`
contains no finally block and never invokes `BaseRequest._destroy`, so
registry de-registration never runs. -/
theorem handle_http_never_destroys (h : Handler) :
    ((handle_http h).countP Ev.isDestroy) = 0 := by
  unfold handle_http
  cases hrs : (runSteps (freshHttpRequest []) h.steps).2.2 with
  | some e =>
    simp [hrs, List.countP_append, List.countP_cons, Ev.isDestroy,
      runSteps_destroyCount]
  | none =>
    cases ho : h.outcome with
    | error e =>
      simp [hrs, ho, List.countP_append, List.countP_cons, Ev.isDestroy,
        runSteps_destroyCount]
    | ok result =>
      cases hp : processOutput result with
      | error e =>
        simp [hrs, ho, hp, List.countP_append, List.countP_cons, Ev.isDestroy,
          runSteps_destroyCount]
      | ok triple =>
        obtain ⟨st, raw, fb⟩ := triple
        simp [hrs, ho, hp, List.countP_append, runSteps_destroyCount,
          sendPhase_destroyCount]

/-- Websocket connection states
(`CONNECTING -> CONNECTED -> DISCONNECTED`, src/asgineer/_request.py
lines 315-316; the spec calls these CONNECTING, OPEN, CLOSED). -/
inductive WsState where
  | connecting
  | connected
  | disconnected
deriving DecidableEq

/-- Inbound ASGI messages on a websocket connection; a receive message
carries an optional bytes field and an optional text field. -/
inductive WsInMsg where
  | connect
  | receiveMsg (bytesField : Option Bytes) (textField : Option String)
  | disconnectMsg (code : Int)
deriving DecidableEq

/-- Payload returned by `WebsocketRequest.receive`: bytes or str,
whichever the client sent. -/
inductive WsPayload where
  | bytes (b : Bytes)
  | text (s : String)
deriving DecidableEq

/-- State of a `WebsocketRequest` object (src/asgineer/_request.py lines
303-316) together with the queue of inbound messages. -/
structure WebsocketRequest where
  clientState : WsState
  appState : WsState
  queue : List WsInMsg
deriving DecidableEq

/-- The truthiness fall-through of `WebsocketRequest.receive`
(src/asgineer/_request.py line 383):
`message.get("bytes", None) or message.get("text", None) or b""`.
A missing field is None and falsy; empty bytes and the empty string are
falsy too, so they fall through to the final `b""`. -/
def wsExtractPayload (b? : Option Bytes) (t? : Option String) : WsPayload :=
  match b? with
  | some b =>
      if b ≠ [] then .bytes b
      else match t? with
        | some t => if t ≠ "" then .text t else .bytes []
        | none => .bytes []
  | none =>
      match t? with
      | some t => if t ≠ "" then .text t else .bytes []
      | none => .bytes []

/-- Model of `WebsocketRequest.receive` (src/asgineer/_request.py lines
368-388): only valid while the client state is CONNECTED; consumes the
next inbound message; a receive message yields its payload via the
truthiness fall-through, a disconnect moves the client state to
DISCONNECTED and raises DisconnectedError. An empty queue stands for a
receive that would suspend forever, modelled as an error. -/
def WebsocketRequest.receive (r : WebsocketRequest) :
    WebsocketRequest × Except PyErr WsPayload :=
  match r.clientState with
  | .disconnected =>
      (r, .error (.ioError "Cannot receive from ws that already disconnected."))
  | .connecting =>
      (r, .error (.ioError "Cannot receive before calling accept on ws."))
  | .connected =>
    match r.queue with
    | [] => (r, .error (.ioError "model: receive would suspend forever"))
    | m :: rest =>
      let r1 := { r with queue := rest }
      match m with
      | .receiveMsg b? t? => (r1, .ok (wsExtractPayload b? t?))
      | .disconnectMsg code =>
          ({ r1 with clientState := .disconnected },
           .error (.disconnectedError ("ws disconnect " ++ toString code)))
      | .connect =>
          (r1, .error (.ioError "Unexpected ws message type websocket.connect"))

/-- Model of `WebsocketRequest.close` (src/asgineer/_request.py lines
411-415): unconditionally emit `websocket.close` with the given code and
set the application state to DISCONNECTED. There is no state check and no
raise statement in this method. -/
def WebsocketRequest.close (r : WebsocketRequest) (code : Int) :
    WebsocketRequest × List Msg × Option PyErr :=
  ({ r with appState := .disconnected }, [.wsClose code], none)

/-- A websocket request whose accept handshake has completed on both
sides and whose inbound queue is `q`. -/
def openWsRequest (q : List WsInMsg) : WebsocketRequest :=
  ⟨.connected, .connected, q⟩

/-- C8 counterexample: a second call to `WebsocketRequest.close` on an
already-closed websocket raises nothing - it emits another
`websocket.close` message and returns normally, so the claim that a
second close fails with a protocol error is false on the code. -/
theorem ws_close_twice_does_not_raise :
    ((openWsRequest []).close 1000).1.appState = .disconnected
    ∧ (((openWsRequest []).close 1000).1.close 1000).2.2 = none
    ∧ (((openWsRequest []).close 1000).1.close 1000).2.1 = [.wsClose 1000] := by
  exact ⟨rfl, rfl, rfl⟩

/-- C8 (amended): `WebsocketRequest.close` always transitions the
application state to CLOSED and emits the `websocket.close` message, from
any prior state; a repeated call is not rejected - it emits the close
message again and raises nothing. -/
theorem ws_close_behaviour (r : WebsocketRequest) (code : Int) :
    r.close code
      = ({ r with appState := .disconnected }, [.wsClose code], none) := by
  rfl

/-- C10: an inbound `websocket.receive` whose payload is empty - a text
frame with text "" or a bytes frame with b"" (the other field absent) -
makes `WebsocketRequest.receive` return the empty byte string b"", never
an empty str: the truthiness fall-through cannot produce an empty text
payload. -/
theorem ws_receive_empty_payload (b? : Option Bytes) (t? : Option String)
    (rest : List WsInMsg)
    (hempty : b? = some [] ∧ t? = none ∨ b? = none ∧ t? = some "") :
    (openWsRequest (.receiveMsg b? t? :: rest)).receive
      = (openWsRequest rest, .ok (.bytes [])) := by
  rcases hempty with ⟨hb, ht⟩ | ⟨hb, ht⟩ <;> subst hb <;> subst ht <;> rfl

/-- Witness for `ws_receive_empty_payload`: an empty text frame. -/
theorem ws_receive_empty_payload_witness :
    ((none : Option Bytes) = some [] ∧ (some "" : Option String) = none
      ∨ (none : Option Bytes) = none ∧ (some "" : Option String) = some "")
    ∧ (openWsRequest [.receiveMsg none (some "")]).receive
      = (openWsRequest [], .ok (.bytes [])) :=
  ⟨Or.inr ⟨rfl, rfl⟩,
   ws_receive_empty_payload none (some "") [] (Or.inr ⟨rfl, rfl⟩)⟩

/-- C1 counterexample: the 2-element grouping is (headers, body), not
(status, body): the pair (404, "hi") does not normalize to the same
triple as the 3-tuple (404, {}, "hi") - it fails the headers validation,
because 404 lands in the headers position while status defaults to 200. -/
theorem normalize_two_tuple_counterexample :
    normalize_response (.pyTuple [.pyInt 404, .pyStr "hi"])
      = .error (.valueError "Headers must be a dict, not <class int>")
    ∧ normalize_response (.pyTuple [.pyInt 404, .pyDict [], .pyStr "hi"])
      = .ok (404, [], .pyStr "hi") :=
  ⟨rfl, rfl⟩
